import Mathlib

set_option linter.unusedVariables false

/-!
Verification of the build/provisioning task definitions of the
switchboard-voice-changer-demo repository against its specification.

The source is a single Python module, `tasks.py`, containing Invoke task
definitions.  The shallow embedding below translates its pure helper
functions (`get_arch`, `get_sdk_url`, `get_effects_url`) directly, and
models the stateful task bodies (`fetch_deps`, `clean`, `build`,
`rebuild`, `test`) as explicit state-passing functions over a small
filesystem model.  External commands (`c.run(...)`) are modelled
structurally: each invocation appends an event to a trace, an oracle
decides whether the command exits zero, and a failing command aborts the
remainder of the task with an error carrying the rendered command line
(Invoke's `UnexpectedExit` behaviour).
-/

/-- Module constant `BUILD_DIR` from tasks.py. -/
def BUILD_DIR : String := "build"

/-- Module constant `EXTERNAL_DIR` from tasks.py. -/
def EXTERNAL_DIR : String := "external"

/-- Module constant `SDK_VERSION` from tasks.py. -/
def SDK_VERSION : String := "3.1.0"

/-- Error raised by `get_arch` for an unrecognized machine identifier
(`raise RuntimeError(f"Unsupported architecture: ...")` in the source);
the payload is the string interpolated into the message. -/
inductive ArchError where
  | unsupported (machine : String)
deriving DecidableEq, Repr

/-- Rendered message of the RuntimeError raised by `get_arch`. -/
def ArchError.message : ArchError → String
  | .unsupported m => "Unsupported architecture: " ++ m

deriving instance DecidableEq for Except

/-- Python's `str.lower()` restricted to its ASCII behaviour, which on
machine identifiers (ASCII alphanumerics) coincides with the full
Unicode lowering.  Written as a character-list map so that it reduces
inside the kernel. -/
def py_lower (s : String) : String := String.mk (s.data.map Char.toLower)

/-- `get_arch` from tasks.py.  The source reads `platform.machine()`;
here that raw machine identifier is the explicit argument.  The source
lowercases it first (`machine = platform.machine().lower()`), compares
against the alias tuples, and raises for anything else. -/
def get_arch (machineRaw : String) : Except ArchError String :=
  let machine := py_lower machineRaw
  if machine = "x86_64" ∨ machine = "amd64" then
    Except.ok "x86_64"
  else if machine = "aarch64" ∨ machine = "arm64" then
    Except.ok "aarch64"
  else
    Except.error (ArchError.unsupported machine)

/-- `get_sdk_url` from tasks.py, with the module-global `SDK_VERSION`
made an explicit first parameter (the source reads it from module
scope via an f-string). -/
def get_sdk_url_v (version arch : String) : String :=
  if arch = "x86_64" then
    "https://switchboard-sdk-public.s3.amazonaws.com/builds/release/" ++ version ++ "/linux/SwitchboardSDK.zip"
  else
    "https://switchboard-sdk-public.s3.amazonaws.com/builds/release/" ++ version ++ "/linux-aarch64/SwitchboardSDK.zip"

/-- `get_sdk_url` as the source evaluates it, at the configured
`SDK_VERSION`. -/
def get_sdk_url : String → String := get_sdk_url_v SDK_VERSION

/-- `get_effects_url` from tasks.py, version made explicit as in
`get_sdk_url_v`. -/
def get_effects_url_v (version arch : String) : String :=
  if arch = "x86_64" then
    "https://switchboard-sdk-public.s3.amazonaws.com/builds/release/" ++ version ++ "/linux/SwitchboardAudioEffects.zip"
  else
    "https://switchboard-sdk-public.s3.amazonaws.com/builds/release/" ++ version ++ "/linux-aarch64/SwitchboardAudioEffects.zip"

/-- `get_effects_url` at the configured `SDK_VERSION`. -/
def get_effects_url : String → String := get_effects_url_v SDK_VERSION

/-- Command string built by the `test` task body (tasks.py lines
153-163): start from `f"{BUILD_DIR}/VoiceChangerTests"` and, when
`if filter:` is truthy, append `f' "{filter}"'`.  In Python both `None`
and the empty string are falsy, so `none` and `some ""` take the
no-argument branch.  The result is a single shell command string handed
to `c.run`. -/
def test_task_cmd : Option String → String
  | none => BUILD_DIR ++ "/VoiceChangerTests"
  | some f =>
      if f.isEmpty then BUILD_DIR ++ "/VoiceChangerTests"
      else BUILD_DIR ++ "/VoiceChangerTests" ++ " \"" ++ f ++ "\""

/-- Word-splitting of a shell command line, restricted to the features
exercised here: blanks separate words outside double quotes, double
quotes group.  This agrees with POSIX shell behaviour on strings that
contain none of the shell expansion characters (dollar, backslash,
backquote); theorems that rely on it carry that restriction as a
hypothesis.  State: remaining characters, inside-quotes flag, flag
whether the current word has started, current word (reversed),
accumulated words. -/
def shellWordsGo : List Char → Bool → Bool → List Char → List String → List String
  | [], _, started, cur, acc =>
      if started then acc ++ [String.mk cur.reverse] else acc
  | c :: rest, inQ, started, cur, acc =>
      if c = '"' then
        shellWordsGo rest (!inQ) true cur acc
      else if c = ' ' ∧ inQ = false then
        if started then shellWordsGo rest inQ false [] (acc ++ [String.mk cur.reverse])
        else shellWordsGo rest inQ false [] acc
      else
        shellWordsGo rest inQ true (c :: cur) acc

/-- Process argument vector obtained by shell word-splitting a command
string. -/
def shellWords (s : String) : List String :=
  shellWordsGo s.data false false [] []

/-- External commands invoked via `c.run` in tasks.py, structurally.
`render` below recovers the exact shell string the source builds. -/
inductive Cmd where
  | wget (outPath url : String)
  | unzip (zipPath destDir : String)
  | rm (path : String)
  | gitClone (opts url destDir : String)
  | rmrf (dir : String)
  | cmakeConfigure (buildDir buildType : String)
  | cmakeBuild (buildDir : String)
deriving DecidableEq, Repr

/-- The exact command-line string tasks.py interpolates for each
command. -/
def Cmd.render : Cmd → String
  | .wget o u => "wget -q --show-progress -O " ++ o ++ " '" ++ u ++ "'"
  | .unzip z d => "unzip -q " ++ z ++ " -d " ++ d
  | .rm p => "rm " ++ p
  | .gitClone opts u d => "git clone " ++ opts ++ " " ++ u ++ " " ++ d
  | .rmrf d => "rm -rf " ++ d
  | .cmakeConfigure bd bt => "cmake -B " ++ bd ++ " -DCMAKE_BUILD_TYPE=" ++ bt
  | .cmakeBuild bd => "cmake --build " ++ bd ++ " -j$(nproc)"

/-- Path-prefix test (`startswith` on the character sequence), written
structurally so that it reduces inside the kernel. -/
def strStartsWith (p s : String) : Bool := p.data.isPrefixOf s.data

/-- Filesystem effect of a command that exits successfully, over a
filesystem modelled as a list of existing paths.  `wget -O p` creates
`p`; `unzip -d dir` creates `dir`; `rm p` removes `p`; a clone creates
its destination; `rm -rf dir` removes `dir` and everything below it;
the cmake configure step populates the build directory; the compile
step's artifacts are left abstract. -/
def Cmd.applyFS : Cmd → List String → List String
  | .wget o _, fs => o :: fs
  | .unzip _ d, fs => d :: fs
  | .rm p, fs => fs.filter (fun q => !(q == p))
  | .gitClone _ _ d, fs => d :: fs
  | .rmrf d, fs => fs.filter (fun q => !(q == d || strStartsWith (d ++ "/") q))
  | .cmakeConfigure bd _, fs => bd :: fs
  | .cmakeBuild _, fs => fs

/-- Observable events of a task run: a `print`, an `os.makedirs`, or an
attempted external command. -/
inductive Event where
  | log (msg : String)
  | mkdirs (dir : String)
  | run (c : Cmd)
deriving DecidableEq, Repr

/-- Errors aborting a task run.  `unsupportedArch` is the RuntimeError
from `get_arch`; `unexpectedExit` is Invoke's UnexpectedExit for a
non-zero external command, carrying the rendered command line.  The
spec's error taxonomy additionally names a ProvisioningError wrapper
(dependency id plus cause); the constructor is included so statements
about wrapping can be expressed, and the embedding of the code never
produces it (tasks.py has no try/except around the fetch commands). -/
inductive TaskError where
  | unsupportedArch (machine : String)
  | unexpectedExit (cmd : String)
  | provisioningError (depId : String) (cause : String)
deriving DecidableEq, Repr

/-- Whether an optional task outcome is the spec's ProvisioningError
wrapper. -/
def isProvisioningErrorB : Option TaskError → Bool
  | some (TaskError.provisioningError _ _) => true
  | _ => false

/-- State threaded through a task body: the filesystem and the trace of
events so far. -/
structure RunState where
  fs : List String
  trace : List Event
deriving DecidableEq, Repr

/-- `c.run(cmd)`: the command is attempted (traced); if the oracle says
it exits zero its filesystem effect applies, otherwise the task aborts
with UnexpectedExit. -/
def step (oracle : Cmd → Bool) (c : Cmd) (s : RunState) : RunState × Option TaskError :=
  if oracle c then
    (⟨c.applyFS s.fs, s.trace ++ [Event.run c]⟩, none)
  else
    (⟨s.fs, s.trace ++ [Event.run c]⟩, some (TaskError.unexpectedExit c.render))

/-- Sequencing of Python statements under exception propagation: once a
step has failed, nothing further executes. -/
def andThen (r : RunState × Option TaskError)
    (f : RunState → RunState × Option TaskError) : RunState × Option TaskError :=
  match r with
  | (s, none) => f s
  | (s, some e) => (s, some e)

/-- `os.path.join` for the one-separator cases appearing in tasks.py. -/
def ospath_join (a b : String) : String := a ++ "/" ++ b

/-- Local variable `sdk_dir` of `fetch_deps`. -/
def sdk_dir : String := ospath_join EXTERNAL_DIR "switchboard-sdk"

/-- Local variable `effects_dir` of `fetch_deps`. -/
def effects_dir : String := ospath_join EXTERNAL_DIR "switchboard-effects"

/-- Local variable `stretch_dir` of `fetch_deps`. -/
def stretch_dir : String := ospath_join EXTERNAL_DIR "signalsmith-stretch"

/-- Local variable `linear_dir` of `fetch_deps`. -/
def linear_dir : String := ospath_join EXTERNAL_DIR "signalsmith-linear"

/-- Local variable `catch2_dir` of `fetch_deps`. -/
def catch2_dir : String := ospath_join EXTERNAL_DIR "Catch2"

/-- One archive-strategy block of `fetch_deps` (the Switchboard SDK and
Audio Effects blocks share this exact shape): if the destination
directory exists, print the skip message; otherwise print the download
message, then run wget to a /tmp zip, unzip into the destination, and
remove the zip. -/
def archiveBlock (oracle : Cmd → Bool) (dir zipTmp url dlMsg skipMsg : String)
    (s : RunState) : RunState × Option TaskError :=
  if dir ∈ s.fs then
    (⟨s.fs, s.trace ++ [Event.log skipMsg]⟩, none)
  else
    andThen (step oracle (Cmd.wget zipTmp url) ⟨s.fs, s.trace ++ [Event.log dlMsg]⟩) fun s1 =>
    andThen (step oracle (Cmd.unzip zipTmp dir) s1) fun s2 =>
    step oracle (Cmd.rm zipTmp) s2

/-- One clone-strategy block of `fetch_deps` (signalsmith-stretch,
signalsmith-linear, Catch2): if the destination exists, print the skip
message; otherwise print the clone message and git-clone directly into
the destination. -/
def cloneBlock (oracle : Cmd → Bool) (dir opts url cloneMsg skipMsg : String)
    (s : RunState) : RunState × Option TaskError :=
  if dir ∈ s.fs then
    (⟨s.fs, s.trace ++ [Event.log skipMsg]⟩, none)
  else
    step oracle (Cmd.gitClone opts url dir) ⟨s.fs, s.trace ++ [Event.log cloneMsg]⟩

/-- Body of the `fetch_deps` task (tasks.py lines 51-105), with the
module-global `SDK_VERSION` an explicit parameter, the result of
`platform.machine()` an explicit argument, and the success of external
commands decided by `oracle`.  The structure mirrors the source
line-for-line: resolve the architecture (a RuntimeError there aborts
before any output), `os.makedirs(EXTERNAL_DIR, exist_ok=True)`, then the
five dependency blocks in order, then the final success print. -/
def fetchDepsV (version : String) (oracle : Cmd → Bool) (machineRaw : String)
    (fs0 : List String) : RunState × Option TaskError :=
  match get_arch machineRaw with
  | Except.error (ArchError.unsupported m) => (⟨fs0, []⟩, some (TaskError.unsupportedArch m))
  | Except.ok arch =>
    let s0 : RunState := ⟨EXTERNAL_DIR :: fs0,
      [Event.log ("Detected architecture: " ++ arch), Event.mkdirs EXTERNAL_DIR]⟩
    andThen (archiveBlock oracle sdk_dir "/tmp/SwitchboardSDK.zip"
        (get_sdk_url_v version arch)
        "Downloading Switchboard SDK..."
        "Switchboard SDK already exists, skipping..." s0) fun s1 =>
    andThen (archiveBlock oracle effects_dir "/tmp/SwitchboardAudioEffects.zip"
        (get_effects_url_v version arch)
        "Downloading Switchboard Audio Effects..."
        "Switchboard Audio Effects already exists, skipping..." s1) fun s2 =>
    andThen (cloneBlock oracle stretch_dir "--depth 1"
        "https://github.com/Signalsmith-Audio/signalsmith-stretch.git"
        "Cloning signalsmith-stretch..."
        "signalsmith-stretch already exists, skipping..." s2) fun s3 =>
    andThen (cloneBlock oracle linear_dir "--depth 1"
        "https://github.com/Signalsmith-Audio/linear.git"
        "Cloning signalsmith-linear..."
        "signalsmith-linear already exists, skipping..." s3) fun s4 =>
    andThen (cloneBlock oracle catch2_dir "--branch v3.4.0 --depth 1"
        "https://github.com/catchorg/Catch2.git"
        "Cloning Catch2..."
        "Catch2 already exists, skipping..." s4) fun s5 =>
    (⟨s5.fs, s5.trace ++ [Event.log "All dependencies fetched successfully!"]⟩, none)

/-- `fetch_deps` at the configured `SDK_VERSION`. -/
def fetch_deps : (Cmd → Bool) → String → List String → RunState × Option TaskError :=
  fetchDepsV SDK_VERSION

/-- The external commands of the Switchboard SDK block. -/
def sdkCmds (version arch : String) : List Cmd :=
  [Cmd.wget "/tmp/SwitchboardSDK.zip" (get_sdk_url_v version arch),
   Cmd.unzip "/tmp/SwitchboardSDK.zip" sdk_dir,
   Cmd.rm "/tmp/SwitchboardSDK.zip"]

/-- The external commands of the Audio Effects block. -/
def effectsCmds (version arch : String) : List Cmd :=
  [Cmd.wget "/tmp/SwitchboardAudioEffects.zip" (get_effects_url_v version arch),
   Cmd.unzip "/tmp/SwitchboardAudioEffects.zip" effects_dir,
   Cmd.rm "/tmp/SwitchboardAudioEffects.zip"]

/-- The external command of the signalsmith-stretch block. -/
def stretchCmds : List Cmd :=
  [Cmd.gitClone "--depth 1" "https://github.com/Signalsmith-Audio/signalsmith-stretch.git" stretch_dir]

/-- The external command of the signalsmith-linear block. -/
def linearCmds : List Cmd :=
  [Cmd.gitClone "--depth 1" "https://github.com/Signalsmith-Audio/linear.git" linear_dir]

/-- The external command of the Catch2 block. -/
def catch2Cmds : List Cmd :=
  [Cmd.gitClone "--branch v3.4.0 --depth 1" "https://github.com/catchorg/Catch2.git" catch2_dir]

/-- Per-dependency command lists of `fetch_deps`, in execution order. -/
def depCmdsList (version arch : String) : List (List Cmd) :=
  [sdkCmds version arch, effectsCmds version arch, stretchCmds, linearCmds, catch2Cmds]

/-- The five local install directories, in execution order. -/
def depDirs : List String := [sdk_dir, effects_dir, stretch_dir, linear_dir, catch2_dir]

/-- Build type string computed by `configure` from its `release`
flag. -/
def build_type_of (release : Bool) : String := if release then "Release" else "Debug"

/-- Body of the `configure` task: `os.makedirs(BUILD_DIR, exist_ok=True)`
then the cmake generator invocation. -/
def configure_body (oracle : Cmd → Bool) (release : Bool)
    (s : RunState) : RunState × Option TaskError :=
  step oracle (Cmd.cmakeConfigure BUILD_DIR (build_type_of release))
    ⟨BUILD_DIR :: s.fs, s.trace ++ [Event.mkdirs BUILD_DIR]⟩

/-- Body of the `build` task: the cmake compile invocation.  The task's
`pre=[configure]` prerequisite runs only when the task is dispatched by
the Invoke executor, not when the decorated function is called directly
from Python. -/
def build_body (oracle : Cmd → Bool) (s : RunState) : RunState × Option TaskError :=
  step oracle (Cmd.cmakeBuild BUILD_DIR) s

/-- Body of the `clean` task: `rm -rf` of the build directory. -/
def clean_body (oracle : Cmd → Bool) (s : RunState) : RunState × Option TaskError :=
  step oracle (Cmd.rmrf BUILD_DIR) s

/-- `build` as dispatched by the Invoke CLI: the `configure`
prerequisite executes, then the build body. -/
def build_dispatch (oracle : Cmd → Bool) (release : Bool)
    (s : RunState) : RunState × Option TaskError :=
  andThen (configure_body oracle release s) fun s1 => build_body oracle s1

/-- Body of the `rebuild` task (tasks.py lines 146-150): `clean(c)` then
`build(c, release=release)`.  Both are direct Python calls to the
decorated task objects; Invoke's `Task.__call__` executes only the body,
so `build`'s `pre=[configure]` prerequisite does not run here. -/
def rebuild_body (oracle : Cmd → Bool) (release : Bool)
    (s : RunState) : RunState × Option TaskError :=
  andThen (clean_body oracle s) fun s1 => build_body oracle s1

/-- All events an archive-strategy block can emit. -/
def archiveEvts (dir zipTmp url dlMsg skipMsg : String) : List Event :=
  [Event.log dlMsg, Event.run (Cmd.wget zipTmp url), Event.run (Cmd.unzip zipTmp dir),
   Event.run (Cmd.rm zipTmp), Event.log skipMsg]

/-- All events a clone-strategy block can emit. -/
def cloneEvts (dir opts url cloneMsg skipMsg : String) : List Event :=
  [Event.log cloneMsg, Event.run (Cmd.gitClone opts url dir), Event.log skipMsg]

/-- Events the Switchboard SDK block can emit. -/
def sdkEvts (version arch : String) : List Event :=
  archiveEvts sdk_dir "/tmp/SwitchboardSDK.zip" (get_sdk_url_v version arch)
    "Downloading Switchboard SDK..." "Switchboard SDK already exists, skipping..."

/-- Events the Audio Effects block can emit. -/
def effectsEvts (version arch : String) : List Event :=
  archiveEvts effects_dir "/tmp/SwitchboardAudioEffects.zip" (get_effects_url_v version arch)
    "Downloading Switchboard Audio Effects..." "Switchboard Audio Effects already exists, skipping..."

/-- Events the signalsmith-stretch block can emit. -/
def stretchEvts : List Event :=
  cloneEvts stretch_dir "--depth 1" "https://github.com/Signalsmith-Audio/signalsmith-stretch.git"
    "Cloning signalsmith-stretch..." "signalsmith-stretch already exists, skipping..."

/-- Events the signalsmith-linear block can emit. -/
def linearEvts : List Event :=
  cloneEvts linear_dir "--depth 1" "https://github.com/Signalsmith-Audio/linear.git"
    "Cloning signalsmith-linear..." "signalsmith-linear already exists, skipping..."

/-- Events the Catch2 block can emit. -/
def catch2Evts : List Event :=
  cloneEvts catch2_dir "--branch v3.4.0 --depth 1" "https://github.com/catchorg/Catch2.git"
    "Cloning Catch2..." "Catch2 already exists, skipping..."

/-- Per-dependency possible event lists, in execution order. -/
def depEvtsList (version arch : String) : List (List Event) :=
  [sdkEvts version arch, effectsEvts version arch, stretchEvts, linearEvts, catch2Evts]

/-- Selects the trace chunk of the dependency at a given position. -/
def depDeltaAt (d1 d2 d3 d4 d5 : List Event) : Nat → List Event
  | 0 => d1
  | 1 => d2
  | 2 => d3
  | 3 => d4
  | 4 => d5
  | _ => []

/-- Proof-side classifier: the dependency position a provisioning
command belongs to, discriminated by its fixed path components. -/
def depTag : Cmd → Option Nat
  | Cmd.wget o _ =>
      if o = "/tmp/SwitchboardSDK.zip" then some 0
      else if o = "/tmp/SwitchboardAudioEffects.zip" then some 1 else none
  | Cmd.unzip z _ =>
      if z = "/tmp/SwitchboardSDK.zip" then some 0
      else if z = "/tmp/SwitchboardAudioEffects.zip" then some 1 else none
  | Cmd.rm p =>
      if p = "/tmp/SwitchboardSDK.zip" then some 0
      else if p = "/tmp/SwitchboardAudioEffects.zip" then some 1 else none
  | Cmd.gitClone _ _ d =>
      if d = stretch_dir then some 2
      else if d = linear_dir then some 3
      else if d = catch2_dir then some 4 else none
  | _ => none

/-- The five skip messages, in execution order. -/
def depSkipMsgs : List String :=
  ["Switchboard SDK already exists, skipping...",
   "Switchboard Audio Effects already exists, skipping...",
   "signalsmith-stretch already exists, skipping...",
   "signalsmith-linear already exists, skipping...",
   "Catch2 already exists, skipping..."]

/-- Oracle for a run in which every wget download fails (e.g. no
network) and every other command succeeds. -/
def wgetFailOracle : Cmd → Bool
  | Cmd.wget _ _ => false
  | _ => true

/-- Oracle for a run in which every archive extraction fails (e.g. a
truncated download) and every other command succeeds. -/
def unzipFailOracle : Cmd → Bool
  | Cmd.unzip _ _ => false
  | _ => true

@[simp] theorem sdk_dir_eq : sdk_dir = "external/switchboard-sdk" := rfl

@[simp] theorem effects_dir_eq : effects_dir = "external/switchboard-effects" := rfl

@[simp] theorem stretch_dir_eq : stretch_dir = "external/signalsmith-stretch" := rfl

@[simp] theorem linear_dir_eq : linear_dir = "external/signalsmith-linear" := rfl

@[simp] theorem catch2_dir_eq : catch2_dir = "external/Catch2" := rfl

theorem andThen_ok (s : RunState) (f : RunState → RunState × Option TaskError) :
    andThen (s, none) f = f s := rfl

theorem andThen_fail (s : RunState) (e : TaskError)
    (f : RunState → RunState × Option TaskError) :
    andThen (s, some e) f = (s, some e) := rfl

/-- Exhaustive summary of one archive-strategy block: the trace grows by
a chunk drawn from the block's event list; paths other than the /tmp zip
are preserved in the filesystem; a pre-existing destination yields
exactly a skip log and success; failure reports the first failing
command, which is the last event of the chunk and was attempted exactly
once. -/
theorem archiveBlockSummary (o : Cmd → Bool) (dir z u dl sk : String) (s : RunState) :
    ∃ fs' δ e, archiveBlock o dir z u dl sk s = (⟨fs', s.trace ++ δ⟩, e) ∧
      (∀ x ∈ δ, x ∈ archiveEvts dir z u dl sk) ∧
      (∀ q, q ≠ z → q ∈ s.fs → q ∈ fs') ∧
      (dir ∈ s.fs → δ = [Event.log sk] ∧ fs' = s.fs ∧ e = none) ∧
      (e = none → ∀ c2, Event.run c2 ∈ δ → o c2 = true) ∧
      (e = none ∨ ∃ c, c ∈ [Cmd.wget z u, Cmd.unzip z dir, Cmd.rm z] ∧
        o c = false ∧
        e = some (TaskError.unexpectedExit c.render) ∧
        δ.getLast? = some (Event.run c) ∧ Event.run c ∉ δ.dropLast) := by
  by_cases h : dir ∈ s.fs
  · refine ⟨s.fs, [Event.log sk], none, ?_, ?_, ?_, ?_, ?_, Or.inl rfl⟩
    · simp [archiveBlock, h]
    · simp [archiveEvts]
    · exact fun q _ hq => hq
    · exact fun _ => ⟨rfl, rfl, rfl⟩
    · intro _ c2 hc2
      simp at hc2
  · cases hw : o (Cmd.wget z u) with
    | false =>
        refine ⟨s.fs, [Event.log dl, Event.run (Cmd.wget z u)],
          some (TaskError.unexpectedExit (Cmd.wget z u).render), ?_, ?_, ?_, ?_, ?_, ?_⟩
        · simp [archiveBlock, h, step, andThen, hw]
        · simp [archiveEvts]
        · exact fun q _ hq => hq
        · exact fun hd => absurd hd h
        · exact fun hcontra => absurd hcontra (by simp)
        · exact Or.inr ⟨Cmd.wget z u, by simp, hw, rfl, by simp, by simp⟩
    | true =>
      cases huz : o (Cmd.unzip z dir) with
      | false =>
          refine ⟨z :: s.fs, [Event.log dl, Event.run (Cmd.wget z u), Event.run (Cmd.unzip z dir)],
            some (TaskError.unexpectedExit (Cmd.unzip z dir).render), ?_, ?_, ?_, ?_, ?_, ?_⟩
          · simp [archiveBlock, h, step, andThen, hw, huz, Cmd.applyFS]
          · simp [archiveEvts]
          · exact fun q _ hq => List.mem_cons_of_mem _ hq
          · exact fun hd => absurd hd h
          · exact fun hcontra => absurd hcontra (by simp)
          · exact Or.inr ⟨Cmd.unzip z dir, by simp, huz, rfl, by simp, by simp⟩
      | true =>
        cases hrm : o (Cmd.rm z) with
        | false =>
            refine ⟨dir :: z :: s.fs,
              [Event.log dl, Event.run (Cmd.wget z u), Event.run (Cmd.unzip z dir),
               Event.run (Cmd.rm z)],
              some (TaskError.unexpectedExit (Cmd.rm z).render), ?_, ?_, ?_, ?_, ?_, ?_⟩
            · simp [archiveBlock, h, step, andThen, hw, huz, hrm, Cmd.applyFS]
            · simp [archiveEvts]
            · exact fun q _ hq => List.mem_cons_of_mem _ (List.mem_cons_of_mem _ hq)
            · exact fun hd => absurd hd h
            · exact fun hcontra => absurd hcontra (by simp)
            · exact Or.inr ⟨Cmd.rm z, by simp, hrm, rfl, by simp, by simp⟩
        | true =>
            refine ⟨(dir :: z :: s.fs).filter (fun q => !(q == z)),
              [Event.log dl, Event.run (Cmd.wget z u), Event.run (Cmd.unzip z dir),
               Event.run (Cmd.rm z)], none, ?_, ?_, ?_, ?_, ?_, Or.inl rfl⟩
            · simp [archiveBlock, h, step, andThen, hw, huz, hrm, Cmd.applyFS]
            · simp [archiveEvts]
            · intro q hqz hq
              rw [List.mem_filter]
              exact ⟨List.mem_cons_of_mem _ (List.mem_cons_of_mem _ hq), by simp [hqz]⟩
            · exact fun hd => absurd hd h
            · intro _ c2 hc2
              simp at hc2
              rcases hc2 with rfl | rfl | rfl
              · exact hw
              · exact huz
              · exact hrm

/-- Exhaustive summary of one clone-strategy block, in the same shape as
`archiveBlockSummary`. -/
theorem cloneBlockSummary (o : Cmd → Bool) (dir opts u cl sk : String) (s : RunState) :
    ∃ fs' δ e, cloneBlock o dir opts u cl sk s = (⟨fs', s.trace ++ δ⟩, e) ∧
      (∀ x ∈ δ, x ∈ cloneEvts dir opts u cl sk) ∧
      (∀ q, q ∈ s.fs → q ∈ fs') ∧
      (dir ∈ s.fs → δ = [Event.log sk] ∧ fs' = s.fs ∧ e = none) ∧
      (e = none → ∀ c2, Event.run c2 ∈ δ → o c2 = true) ∧
      (e = none ∨ ∃ c, c ∈ [Cmd.gitClone opts u dir] ∧
        o c = false ∧
        e = some (TaskError.unexpectedExit c.render) ∧
        δ.getLast? = some (Event.run c) ∧ Event.run c ∉ δ.dropLast) := by
  by_cases h : dir ∈ s.fs
  · refine ⟨s.fs, [Event.log sk], none, ?_, ?_, fun q hq => hq, fun _ => ⟨rfl, rfl, rfl⟩,
      ?_, Or.inl rfl⟩
    · simp [cloneBlock, h]
    · simp [cloneEvts]
    · intro _ c2 hc2
      simp at hc2
  · cases hg : o (Cmd.gitClone opts u dir) with
    | false =>
        refine ⟨s.fs, [Event.log cl, Event.run (Cmd.gitClone opts u dir)],
          some (TaskError.unexpectedExit (Cmd.gitClone opts u dir).render), ?_, ?_,
          fun q hq => hq, fun hd => absurd hd h,
          fun hcontra => absurd hcontra (by simp), ?_⟩
        · simp [cloneBlock, h, step, andThen, hg]
        · simp [cloneEvts]
        · exact Or.inr ⟨Cmd.gitClone opts u dir, by simp, hg, rfl, by simp, by simp⟩
    | true =>
        refine ⟨dir :: s.fs, [Event.log cl, Event.run (Cmd.gitClone opts u dir)], none, ?_, ?_,
          fun q hq => List.mem_cons_of_mem _ hq, fun hd => absurd hd h, ?_, Or.inl rfl⟩
        · simp [cloneBlock, h, step, andThen, hg, Cmd.applyFS]
        · simp [cloneEvts]
        · intro _ c2 hc2
          simp at hc2
          rcases hc2 with rfl
          exact hg


/-- Exhaustive summary of a `fetch_deps` run once the architecture
resolves: the trace is the two initial events followed by one chunk per
dependency block in order; each chunk draws only from its block's event
list; either every block succeeded (and a block whose directory
pre-existed contributed exactly its skip log) and the success banner is
printed, or some block failed on a command whose oracle verdict is
false, that command is the last event of the whole trace, it was
attempted exactly once, and every later block contributed nothing. -/
theorem fetchDepsVSummary (v : String) (o : Cmd → Bool) (machineRaw arch : String)
    (fs0 : List String) (harch : get_arch machineRaw = Except.ok arch) :
    ∃ fs' δ1 δ2 δ3 δ4 δ5 tail e,
      fetchDepsV v o machineRaw fs0 =
        (⟨fs', [Event.log ("Detected architecture: " ++ arch), Event.mkdirs EXTERNAL_DIR]
            ++ δ1 ++ δ2 ++ δ3 ++ δ4 ++ δ5 ++ tail⟩, e) ∧
      (∀ x ∈ δ1, x ∈ sdkEvts v arch) ∧
      (∀ x ∈ δ2, x ∈ effectsEvts v arch) ∧
      (∀ x ∈ δ3, x ∈ stretchEvts) ∧
      (∀ x ∈ δ4, x ∈ linearEvts) ∧
      (∀ x ∈ δ5, x ∈ catch2Evts) ∧
      ((e = none ∧ tail = [Event.log "All dependencies fetched successfully!"] ∧
        (sdk_dir ∈ fs0 → δ1 = [Event.log "Switchboard SDK already exists, skipping..."]) ∧
        (effects_dir ∈ fs0 → δ2 = [Event.log "Switchboard Audio Effects already exists, skipping..."]) ∧
        (stretch_dir ∈ fs0 → δ3 = [Event.log "signalsmith-stretch already exists, skipping..."]) ∧
        (linear_dir ∈ fs0 → δ4 = [Event.log "signalsmith-linear already exists, skipping..."]) ∧
        (catch2_dir ∈ fs0 → δ5 = [Event.log "Catch2 already exists, skipping..."]) ∧
        (∀ c2, Event.run c2 ∈ δ1 → o c2 = true) ∧
        (∀ c2, Event.run c2 ∈ δ2 → o c2 = true) ∧
        (∀ c2, Event.run c2 ∈ δ3 → o c2 = true) ∧
        (∀ c2, Event.run c2 ∈ δ4 → o c2 = true) ∧
        (∀ c2, Event.run c2 ∈ δ5 → o c2 = true)) ∨
       (∃ i, ∃ hi : i < 5, ∃ c,
          tail = [] ∧ c ∈ (depCmdsList v arch).get ⟨i, hi⟩ ∧ o c = false ∧
          e = some (TaskError.unexpectedExit c.render) ∧
          (depDeltaAt δ1 δ2 δ3 δ4 δ5 i).getLast? = some (Event.run c) ∧
          Event.run c ∉ (depDeltaAt δ1 δ2 δ3 δ4 δ5 i).dropLast ∧
          ∀ j, i < j → depDeltaAt δ1 δ2 δ3 δ4 δ5 j = [])) := by
  obtain ⟨fs1, δ1, e1, hEq1, hSub1, hPres1, hSkip1, hRunOk1, hF1⟩ :=
    archiveBlockSummary o sdk_dir "/tmp/SwitchboardSDK.zip" (get_sdk_url_v v arch)
      "Downloading Switchboard SDK..." "Switchboard SDK already exists, skipping..."
      ⟨EXTERNAL_DIR :: fs0,
        [Event.log ("Detected architecture: " ++ arch), Event.mkdirs EXTERNAL_DIR]⟩
  cases e1 with
  | some err1 =>
      rcases hF1 with h | ⟨c, hc, hoc, hee, hlast, hnd⟩
      · exact absurd h (by simp)
      refine ⟨fs1, δ1, [], [], [], [], [], some err1, ?_, hSub1, by simp, by simp, by simp,
        by simp, Or.inr ⟨0, by omega, c, rfl, hc, hoc, hee, hlast, hnd, ?_⟩⟩
      · simp only [fetchDepsV, harch, hEq1, andThen_fail]
        simp
      · intro j hj
        rcases j with _ | (_ | (_ | (_ | (_ | j)))) <;> first | omega | rfl
  | none =>
      obtain ⟨fs2, δ2, e2, hEq2, hSub2, hPres2, hSkip2, hRunOk2, hF2⟩ :=
        archiveBlockSummary o effects_dir "/tmp/SwitchboardAudioEffects.zip"
          (get_effects_url_v v arch) "Downloading Switchboard Audio Effects..."
          "Switchboard Audio Effects already exists, skipping..." ⟨fs1,
            ([Event.log ("Detected architecture: " ++ arch), Event.mkdirs EXTERNAL_DIR]
              ++ δ1 : List Event)⟩
      cases e2 with
      | some err2 =>
          rcases hF2 with h | ⟨c, hc, hoc, hee, hlast, hnd⟩
          · exact absurd h (by simp)
          refine ⟨fs2, δ1, δ2, [], [], [], [], some err2, ?_, hSub1, hSub2, by simp, by simp,
            by simp, Or.inr ⟨1, by omega, c, rfl, hc, hoc, hee, hlast, hnd, ?_⟩⟩
          · simp only [fetchDepsV, harch, hEq1, andThen_ok, hEq2, andThen_fail]
            simp
          · intro j hj
            rcases j with _ | (_ | (_ | (_ | (_ | j)))) <;> first | omega | rfl
      | none =>
          obtain ⟨fs3, δ3, e3, hEq3, hSub3, hPres3, hSkip3, hRunOk3, hF3⟩ :=
            cloneBlockSummary o stretch_dir "--depth 1"
              "https://github.com/Signalsmith-Audio/signalsmith-stretch.git"
              "Cloning signalsmith-stretch..."
              "signalsmith-stretch already exists, skipping..." ⟨fs2,
                (([Event.log ("Detected architecture: " ++ arch), Event.mkdirs EXTERNAL_DIR]
                  ++ δ1 : List Event) ++ δ2 : List Event)⟩
          cases e3 with
          | some err3 =>
              rcases hF3 with h | ⟨c, hc, hoc, hee, hlast, hnd⟩
              · exact absurd h (by simp)
              refine ⟨fs3, δ1, δ2, δ3, [], [], [], some err3, ?_, hSub1, hSub2, hSub3,
                by simp, by simp, Or.inr ⟨2, by omega, c, rfl, hc, hoc, hee, hlast, hnd, ?_⟩⟩
              · simp only [fetchDepsV, harch, hEq1, andThen_ok, hEq2, hEq3, andThen_fail]
                simp
              · intro j hj
                rcases j with _ | (_ | (_ | (_ | (_ | j)))) <;> first | omega | rfl
          | none =>
              obtain ⟨fs4, δ4, e4, hEq4, hSub4, hPres4, hSkip4, hRunOk4, hF4⟩ :=
                cloneBlockSummary o linear_dir "--depth 1"
                  "https://github.com/Signalsmith-Audio/linear.git"
                  "Cloning signalsmith-linear..."
                  "signalsmith-linear already exists, skipping..." ⟨fs3,
                    ((([Event.log ("Detected architecture: " ++ arch),
                        Event.mkdirs EXTERNAL_DIR] ++ δ1 : List Event) ++ δ2 : List Event)
                      ++ δ3 : List Event)⟩
              cases e4 with
              | some err4 =>
                  rcases hF4 with h | ⟨c, hc, hoc, hee, hlast, hnd⟩
                  · exact absurd h (by simp)
                  refine ⟨fs4, δ1, δ2, δ3, δ4, [], [], some err4, ?_, hSub1, hSub2, hSub3,
                    hSub4, by simp,
                    Or.inr ⟨3, by omega, c, rfl, hc, hoc, hee, hlast, hnd, ?_⟩⟩
                  · simp only [fetchDepsV, harch, hEq1, andThen_ok, hEq2, hEq3, hEq4,
                      andThen_fail]
                    simp
                  · intro j hj
                    rcases j with _ | (_ | (_ | (_ | (_ | j)))) <;> first | omega | rfl
              | none =>
                  obtain ⟨fs5, δ5, e5, hEq5, hSub5, hPres5, hSkip5, hRunOk5, hF5⟩ :=
                    cloneBlockSummary o catch2_dir "--branch v3.4.0 --depth 1"
                      "https://github.com/catchorg/Catch2.git"
                      "Cloning Catch2..."
                      "Catch2 already exists, skipping..." ⟨fs4,
                        (((([Event.log ("Detected architecture: " ++ arch),
                            Event.mkdirs EXTERNAL_DIR] ++ δ1 : List Event) ++ δ2 : List Event)
                          ++ δ3 : List Event) ++ δ4 : List Event)⟩
                  cases e5 with
                  | some err5 =>
                      rcases hF5 with h | ⟨c, hc, hoc, hee, hlast, hnd⟩
                      · exact absurd h (by simp)
                      refine ⟨fs5, δ1, δ2, δ3, δ4, δ5, [], some err5, ?_, hSub1, hSub2,
                        hSub3, hSub4, hSub5,
                        Or.inr ⟨4, by omega, c, rfl, hc, hoc, hee, hlast, hnd, ?_⟩⟩
                      · simp only [fetchDepsV, harch, hEq1, andThen_ok, hEq2, hEq3, hEq4,
                          hEq5, andThen_fail]
                        simp
                      · intro j hj
                        rcases j with _ | (_ | (_ | (_ | (_ | j)))) <;> first | omega | rfl
                  | none =>
                      refine ⟨fs5, δ1, δ2, δ3, δ4, δ5,
                        [Event.log "All dependencies fetched successfully!"], none, ?_,
                        hSub1, hSub2, hSub3, hSub4, hSub5,
                        Or.inl ⟨rfl, rfl, ?_, ?_, ?_, ?_, ?_,
                          hRunOk1 rfl, hRunOk2 rfl, hRunOk3 rfl, hRunOk4 rfl, hRunOk5 rfl⟩⟩
                      · simp only [fetchDepsV, harch, hEq1, andThen_ok, hEq2, hEq3, hEq4,
                          hEq5]
                      · intro hm
                        exact (hSkip1 (List.mem_cons_of_mem _ hm)).1
                      · intro hm
                        exact (hSkip2 (hPres1 effects_dir (by decide)
                          (List.mem_cons_of_mem _ hm))).1
                      · intro hm
                        exact (hSkip3 (hPres2 stretch_dir (by decide)
                          (hPres1 stretch_dir (by decide) (List.mem_cons_of_mem _ hm)))).1
                      · intro hm
                        exact (hSkip4 (hPres3 linear_dir
                          (hPres2 linear_dir (by decide)
                            (hPres1 linear_dir (by decide) (List.mem_cons_of_mem _ hm))))).1
                      · intro hm
                        exact (hSkip5 (hPres4 catch2_dir (hPres3 catch2_dir
                          (hPres2 catch2_dir (by decide)
                            (hPres1 catch2_dir (by decide)
                              (List.mem_cons_of_mem _ hm)))))).1


theorem depTag_of_mem (v arch : String) (i : Nat) (hi : i < 5) (c : Cmd)
    (hc : c ∈ (depCmdsList v arch).get ⟨i, hi⟩) : depTag c = some i := by
  interval_cases i
  · simp only [depCmdsList, sdkCmds, List.get, List.mem_cons, List.not_mem_nil,
      or_false] at hc
    rcases hc with rfl | rfl | rfl <;> simp [depTag]
  · simp only [depCmdsList, effectsCmds, List.get, List.mem_cons, List.not_mem_nil,
      or_false] at hc
    rcases hc with rfl | rfl | rfl <;> simp [depTag]
  · simp only [depCmdsList, stretchCmds, List.get, List.mem_cons, List.not_mem_nil,
      or_false] at hc
    rcases hc with rfl
    simp [depTag]
  · simp only [depCmdsList, linearCmds, List.get, List.mem_cons, List.not_mem_nil,
      or_false] at hc
    rcases hc with rfl
    simp [depTag]
  · simp only [depCmdsList, catch2Cmds, List.get, List.mem_cons, List.not_mem_nil,
      or_false] at hc
    rcases hc with rfl
    simp [depTag]

theorem cmds_disjoint (v arch : String) (i j : Nat) (hi : i < 5) (hj : j < 5) (c : Cmd)
    (hci : c ∈ (depCmdsList v arch).get ⟨i, hi⟩)
    (hcj : c ∈ (depCmdsList v arch).get ⟨j, hj⟩) : i = j := by
  have h1 := depTag_of_mem v arch i hi c hci
  have h2 := depTag_of_mem v arch j hj c hcj
  rw [h1] at h2
  exact Option.some.inj h2

theorem evts_run_to_cmds (v arch : String) (i : Nat) (hi : i < 5) (c : Cmd)
    (hx : Event.run c ∈ (depEvtsList v arch).get ⟨i, hi⟩) :
    c ∈ (depCmdsList v arch).get ⟨i, hi⟩ := by
  interval_cases i <;>
    simp only [depEvtsList, depCmdsList, sdkEvts, effectsEvts, stretchEvts, linearEvts,
      catch2Evts, sdkCmds, effectsCmds, stretchCmds, linearCmds, catch2Cmds, archiveEvts,
      cloneEvts, List.get, List.mem_cons, List.not_mem_nil, or_false] at hx ⊢ <;>
    simp_all


/-- C1: for every dependency whose local install path already exists
when `fetch_deps` runs, the task performs zero download, extract, or
clone commands for that dependency, logs its skip message, and still
reports overall success (the success banner is printed and no error is
raised), independently of the configured version (the statement is
quantified over the version string). -/
theorem C1_fetch_deps_skips_existing (v : String) (o : Cmd → Bool)
    (machineRaw arch : String) (fs0 : List String)
    (harch : get_arch machineRaw = Except.ok arch)
    (hok : ∀ c, o c = true) :
    (fetchDepsV v o machineRaw fs0).2 = none ∧
    Event.log "All dependencies fetched successfully!" ∈
      (fetchDepsV v o machineRaw fs0).1.trace ∧
    (sdk_dir ∈ fs0 →
      Event.log "Switchboard SDK already exists, skipping..." ∈
        (fetchDepsV v o machineRaw fs0).1.trace ∧
      ∀ c ∈ sdkCmds v arch, Event.run c ∉ (fetchDepsV v o machineRaw fs0).1.trace) ∧
    (effects_dir ∈ fs0 →
      Event.log "Switchboard Audio Effects already exists, skipping..." ∈
        (fetchDepsV v o machineRaw fs0).1.trace ∧
      ∀ c ∈ effectsCmds v arch, Event.run c ∉ (fetchDepsV v o machineRaw fs0).1.trace) ∧
    (stretch_dir ∈ fs0 →
      Event.log "signalsmith-stretch already exists, skipping..." ∈
        (fetchDepsV v o machineRaw fs0).1.trace ∧
      ∀ c ∈ stretchCmds, Event.run c ∉ (fetchDepsV v o machineRaw fs0).1.trace) ∧
    (linear_dir ∈ fs0 →
      Event.log "signalsmith-linear already exists, skipping..." ∈
        (fetchDepsV v o machineRaw fs0).1.trace ∧
      ∀ c ∈ linearCmds, Event.run c ∉ (fetchDepsV v o machineRaw fs0).1.trace) ∧
    (catch2_dir ∈ fs0 →
      Event.log "Catch2 already exists, skipping..." ∈
        (fetchDepsV v o machineRaw fs0).1.trace ∧
      ∀ c ∈ catch2Cmds, Event.run c ∉ (fetchDepsV v o machineRaw fs0).1.trace) := by
  obtain ⟨fs', δ1, δ2, δ3, δ4, δ5, tail, e, hEq, hSub1, hSub2, hSub3, hSub4, hSub5, hCase⟩ :=
    fetchDepsVSummary v o machineRaw arch fs0 harch
  rcases hCase with ⟨henone, htail, hs1, hs2, hs3, hs4, hs5, -, -, -, -, -⟩ | ⟨i, hi, c, _, _, hoc, _⟩
  swap
  · exact absurd (hok c) (by simp [hoc])
  subst henone
  refine ⟨by rw [hEq], by rw [hEq]; simp [htail], ?_, ?_, ?_, ?_, ?_⟩
  · intro hmem
    have hδ := hs1 hmem
    refine ⟨by rw [hEq]; simp [hδ], ?_⟩
    intro c hc hIn
    rw [hEq] at hIn
    simp [hδ, htail] at hIn
    rcases hIn with h | h | h | h
    · exact absurd (cmds_disjoint v arch 0 1 (by omega) (by omega) c hc
        (evts_run_to_cmds v arch 1 (by omega) c (hSub2 _ h))) (by omega)
    · exact absurd (cmds_disjoint v arch 0 2 (by omega) (by omega) c hc
        (evts_run_to_cmds v arch 2 (by omega) c (hSub3 _ h))) (by omega)
    · exact absurd (cmds_disjoint v arch 0 3 (by omega) (by omega) c hc
        (evts_run_to_cmds v arch 3 (by omega) c (hSub4 _ h))) (by omega)
    · exact absurd (cmds_disjoint v arch 0 4 (by omega) (by omega) c hc
        (evts_run_to_cmds v arch 4 (by omega) c (hSub5 _ h))) (by omega)
  · intro hmem
    have hδ := hs2 hmem
    refine ⟨by rw [hEq]; simp [hδ], ?_⟩
    intro c hc hIn
    rw [hEq] at hIn
    simp [hδ, htail] at hIn
    rcases hIn with h | h | h | h
    · exact absurd (cmds_disjoint v arch 1 0 (by omega) (by omega) c hc
        (evts_run_to_cmds v arch 0 (by omega) c (hSub1 _ h))) (by omega)
    · exact absurd (cmds_disjoint v arch 1 2 (by omega) (by omega) c hc
        (evts_run_to_cmds v arch 2 (by omega) c (hSub3 _ h))) (by omega)
    · exact absurd (cmds_disjoint v arch 1 3 (by omega) (by omega) c hc
        (evts_run_to_cmds v arch 3 (by omega) c (hSub4 _ h))) (by omega)
    · exact absurd (cmds_disjoint v arch 1 4 (by omega) (by omega) c hc
        (evts_run_to_cmds v arch 4 (by omega) c (hSub5 _ h))) (by omega)
  · intro hmem
    have hδ := hs3 hmem
    refine ⟨by rw [hEq]; simp [hδ], ?_⟩
    intro c hc hIn
    rw [hEq] at hIn
    simp [hδ, htail] at hIn
    rcases hIn with h | h | h | h
    · exact absurd (cmds_disjoint v arch 2 0 (by omega) (by omega) c hc
        (evts_run_to_cmds v arch 0 (by omega) c (hSub1 _ h))) (by omega)
    · exact absurd (cmds_disjoint v arch 2 1 (by omega) (by omega) c hc
        (evts_run_to_cmds v arch 1 (by omega) c (hSub2 _ h))) (by omega)
    · exact absurd (cmds_disjoint v arch 2 3 (by omega) (by omega) c hc
        (evts_run_to_cmds v arch 3 (by omega) c (hSub4 _ h))) (by omega)
    · exact absurd (cmds_disjoint v arch 2 4 (by omega) (by omega) c hc
        (evts_run_to_cmds v arch 4 (by omega) c (hSub5 _ h))) (by omega)
  · intro hmem
    have hδ := hs4 hmem
    refine ⟨by rw [hEq]; simp [hδ], ?_⟩
    intro c hc hIn
    rw [hEq] at hIn
    simp [hδ, htail] at hIn
    rcases hIn with h | h | h | h
    · exact absurd (cmds_disjoint v arch 3 0 (by omega) (by omega) c hc
        (evts_run_to_cmds v arch 0 (by omega) c (hSub1 _ h))) (by omega)
    · exact absurd (cmds_disjoint v arch 3 1 (by omega) (by omega) c hc
        (evts_run_to_cmds v arch 1 (by omega) c (hSub2 _ h))) (by omega)
    · exact absurd (cmds_disjoint v arch 3 2 (by omega) (by omega) c hc
        (evts_run_to_cmds v arch 2 (by omega) c (hSub3 _ h))) (by omega)
    · exact absurd (cmds_disjoint v arch 3 4 (by omega) (by omega) c hc
        (evts_run_to_cmds v arch 4 (by omega) c (hSub5 _ h))) (by omega)
  · intro hmem
    have hδ := hs5 hmem
    refine ⟨by rw [hEq]; simp [hδ], ?_⟩
    intro c hc hIn
    rw [hEq] at hIn
    simp [hδ, htail] at hIn
    rcases hIn with h | h | h | h
    · exact absurd (cmds_disjoint v arch 4 0 (by omega) (by omega) c hc
        (evts_run_to_cmds v arch 0 (by omega) c (hSub1 _ h))) (by omega)
    · exact absurd (cmds_disjoint v arch 4 1 (by omega) (by omega) c hc
        (evts_run_to_cmds v arch 1 (by omega) c (hSub2 _ h))) (by omega)
    · exact absurd (cmds_disjoint v arch 4 2 (by omega) (by omega) c hc
        (evts_run_to_cmds v arch 2 (by omega) c (hSub3 _ h))) (by omega)
    · exact absurd (cmds_disjoint v arch 4 3 (by omega) (by omega) c hc
        (evts_run_to_cmds v arch 3 (by omega) c (hSub4 _ h))) (by omega)

theorem shellWords_test_none :
    shellWords (test_task_cmd none) = ["build/VoiceChangerTests"] := by decide

/-- C7: if any provisioning step for one dependency in `fetch_deps`
fails, no fetch, extract, or clone command of any subsequent dependency
is started (none appears in the trace), and the failure propagates to
the caller as the task's error outcome: a run that reports success is
one in which every attempted command exited zero, so a failure can never
be swallowed, and a reported failure names a failing provisioning
command after which no later dependency's command was attempted.  There
is no best-effort continuation. -/
theorem C7_fetch_deps_fail_fast (v : String) (o : Cmd → Bool) (machineRaw arch : String)
    (fs0 : List String) (harch : get_arch machineRaw = Except.ok arch) :
    ((fetchDepsV v o machineRaw fs0).2 = none →
      ∀ c2, Event.run c2 ∈ (fetchDepsV v o machineRaw fs0).1.trace → o c2 = true) ∧
    (∀ r, (fetchDepsV v o machineRaw fs0).2 = some (TaskError.unexpectedExit r) →
      ∃ i, ∃ hi : i < 5, ∃ c, c ∈ (depCmdsList v arch).get ⟨i, hi⟩ ∧
        r = c.render ∧ o c = false ∧
        ∀ j, ∀ hj : j < 5, i < j →
          ∀ c2 ∈ (depCmdsList v arch).get ⟨j, hj⟩,
            Event.run c2 ∉ (fetchDepsV v o machineRaw fs0).1.trace) := by
  obtain ⟨fs', δ1, δ2, δ3, δ4, δ5, tail, e, hEq, hSub1, hSub2, hSub3, hSub4, hSub5, hCase⟩ :=
    fetchDepsVSummary v o machineRaw arch fs0 harch
  constructor
  · intro henone c2 hIn
    rw [hEq] at henone hIn
    simp only [] at henone
    rcases hCase with ⟨-, htail, -, -, -, -, -, hr1, hr2, hr3, hr4, hr5⟩ |
      ⟨i, hi, c, -, -, -, hee, -⟩
    · subst htail
      simp [List.mem_append] at hIn
      rcases hIn with h | h | h | h | h
      · exact hr1 c2 h
      · exact hr2 c2 h
      · exact hr3 c2 h
      · exact hr4 c2 h
      · exact hr5 c2 h
    · rw [hee] at henone
      exact absurd henone (by simp)
  intro r hfail
  rw [hEq] at hfail
  simp only [] at hfail
  rcases hCase with ⟨henone, -⟩ | ⟨i, hi, c, htail, hc, hoc, hee, hlast, hnd, hempty⟩
  · rw [henone] at hfail
    exact absurd hfail (by simp)
  rw [hee] at hfail
  simp only [Option.some.injEq, TaskError.unexpectedExit.injEq] at hfail
  refine ⟨i, hi, c, hc, hfail.symm, hoc, ?_⟩
  intro j hj hij c2 hc2 hIn
  rw [hEq] at hIn
  subst htail
  simp [List.mem_append] at hIn
  rcases hIn with h | h | h | h | h
  · have hck := evts_run_to_cmds v arch 0 (by omega) c2 (hSub1 _ h)
    have hjk := cmds_disjoint v arch j 0 hj (by omega) c2 hc2 hck
    subst hjk
    have he : δ1 = [] := hempty 0 hij
    rw [he] at h
    simp at h
  · have hck := evts_run_to_cmds v arch 1 (by omega) c2 (hSub2 _ h)
    have hjk := cmds_disjoint v arch j 1 hj (by omega) c2 hc2 hck
    subst hjk
    have he : δ2 = [] := hempty 1 hij
    rw [he] at h
    simp at h
  · have hck := evts_run_to_cmds v arch 2 (by omega) c2 (hSub3 _ h)
    have hjk := cmds_disjoint v arch j 2 hj (by omega) c2 hc2 hck
    subst hjk
    have he : δ3 = [] := hempty 2 hij
    rw [he] at h
    simp at h
  · have hck := evts_run_to_cmds v arch 3 (by omega) c2 (hSub4 _ h)
    have hjk := cmds_disjoint v arch j 3 hj (by omega) c2 hc2 hck
    subst hjk
    have he : δ4 = [] := hempty 3 hij
    rw [he] at h
    simp at h
  · have hck := evts_run_to_cmds v arch 4 (by omega) c2 (hSub5 _ h)
    have hjk := cmds_disjoint v arch j 4 hj (by omega) c2 hc2 hck
    subst hjk
    have he : δ5 = [] := hempty 4 hij
    rw [he] at h
    simp at h

theorem C7_fetch_deps_fail_fast_witness :
    ∃ i, ∃ hi : i < 5, ∃ c, c ∈ (depCmdsList "3.1.0" "x86_64").get ⟨i, hi⟩ ∧
      (Cmd.wget "/tmp/SwitchboardSDK.zip" (get_sdk_url_v "3.1.0" "x86_64")).render = c.render ∧
      wgetFailOracle c = false ∧
      ∀ j, ∀ hj : j < 5, i < j →
        ∀ c2 ∈ (depCmdsList "3.1.0" "x86_64").get ⟨j, hj⟩,
          Event.run c2 ∉ (fetchDepsV "3.1.0" wgetFailOracle "x86_64" []).1.trace :=
  (C7_fetch_deps_fail_fast "3.1.0" wgetFailOracle "x86_64" "x86_64" [] (by decide)).2
    (Cmd.wget "/tmp/SwitchboardSDK.zip" (get_sdk_url_v "3.1.0" "x86_64")).render
    (by decide)

/-- C8 counterexample: a failed download during provisioning of the
Switchboard SDK propagates as the bare UnexpectedExit of the wget
command line; it is not a ProvisioningError wrapper carrying the
dependency id, so the claim that every provisioning error is so wrapped
is false at this concrete input. -/
theorem C8_counterexample_unwrapped_error :
    (fetch_deps wgetFailOracle "x86_64" []).2 =
      some (TaskError.unexpectedExit
        (Cmd.wget "/tmp/SwitchboardSDK.zip" (get_sdk_url "x86_64")).render) ∧
    isProvisioningErrorB (fetch_deps wgetFailOracle "x86_64" []).2 = false := by
  decide

/-- C8 amended: every error raised while provisioning a dependency
propagates unwrapped, as Invoke's UnexpectedExit carrying the failing
command line (never the spec's ProvisioningError wrapper with a
dependency id), and the command is not retried: the failing command is
the last event of the run's trace and does not occur earlier in it. -/
theorem C8_amended_errors_unwrapped_no_retry (v : String) (o : Cmd → Bool)
    (machineRaw arch : String) (fs0 : List String) (e : TaskError)
    (harch : get_arch machineRaw = Except.ok arch)
    (hfail : (fetchDepsV v o machineRaw fs0).2 = some e) :
    ∃ c, (∃ i, ∃ hi : i < 5, c ∈ (depCmdsList v arch).get ⟨i, hi⟩) ∧
      e = TaskError.unexpectedExit c.render ∧
      isProvisioningErrorB (some e) = false ∧
      (fetchDepsV v o machineRaw fs0).1.trace.getLast? = some (Event.run c) ∧
      Event.run c ∉ (fetchDepsV v o machineRaw fs0).1.trace.dropLast := by
  obtain ⟨fs', δ1, δ2, δ3, δ4, δ5, tail, e', hEq, hSub1, hSub2, hSub3, hSub4, hSub5, hCase⟩ :=
    fetchDepsVSummary v o machineRaw arch fs0 harch
  rw [hEq] at hfail
  simp only [] at hfail
  rcases hCase with ⟨henone, _⟩ | ⟨i, hi, c, htail, hc, hoc, hee, hlast, hnd, hempty⟩
  · rw [henone] at hfail
    exact absurd hfail (by simp)
  rw [hee] at hfail
  simp only [Option.some.injEq] at hfail
  subst hfail
  subst htail
  refine ⟨c, ⟨i, hi, hc⟩, rfl, rfl, ?_, ?_⟩
  all_goals rw [hEq]
  all_goals interval_cases i
  all_goals simp only [depDeltaAt] at hlast hnd
  -- reduce the later, empty chunks
  case refine_1.«0» =>
    have h2 : δ2 = [] := hempty 1 (by omega)
    have h3 : δ3 = [] := hempty 2 (by omega)
    have h4 : δ4 = [] := hempty 3 (by omega)
    have h5 : δ5 = [] := hempty 4 (by omega)
    rw [h2, h3, h4, h5]
    have hsplit := List.dropLast_append_getLast? (Event.run c) (by rw [hlast]; rfl)
    simp only [List.append_nil]
    rw [← hsplit, ← List.append_assoc]
    exact List.getLast?_concat _
  case refine_1.«1» =>
    have h3 : δ3 = [] := hempty 2 (by omega)
    have h4 : δ4 = [] := hempty 3 (by omega)
    have h5 : δ5 = [] := hempty 4 (by omega)
    rw [h3, h4, h5]
    have hsplit := List.dropLast_append_getLast? (Event.run c) (by rw [hlast]; rfl)
    simp only [List.append_nil]
    rw [← hsplit, ← List.append_assoc]
    exact List.getLast?_concat _
  case refine_1.«2» =>
    have h4 : δ4 = [] := hempty 3 (by omega)
    have h5 : δ5 = [] := hempty 4 (by omega)
    rw [h4, h5]
    have hsplit := List.dropLast_append_getLast? (Event.run c) (by rw [hlast]; rfl)
    simp only [List.append_nil]
    rw [← hsplit, ← List.append_assoc]
    exact List.getLast?_concat _
  case refine_1.«3» =>
    have h5 : δ5 = [] := hempty 4 (by omega)
    rw [h5]
    have hsplit := List.dropLast_append_getLast? (Event.run c) (by rw [hlast]; rfl)
    simp only [List.append_nil]
    rw [← hsplit, ← List.append_assoc]
    exact List.getLast?_concat _
  case refine_1.«4» =>
    have hsplit := List.dropLast_append_getLast? (Event.run c) (by rw [hlast]; rfl)
    simp only [List.append_nil]
    rw [← hsplit, ← List.append_assoc]
    exact List.getLast?_concat _
  case refine_2.«0» =>
    have h2 : δ2 = [] := hempty 1 (by omega)
    have h3 : δ3 = [] := hempty 2 (by omega)
    have h4 : δ4 = [] := hempty 3 (by omega)
    have h5 : δ5 = [] := hempty 4 (by omega)
    rw [h2, h3, h4, h5]
    have hsplit := List.dropLast_append_getLast? (Event.run c) (by rw [hlast]; rfl)
    simp only [List.append_nil]
    rw [← hsplit, ← List.append_assoc, List.dropLast_concat]
    intro hIn
    simp [List.mem_append] at hIn
    exact hnd hIn
  case refine_2.«1» =>
    have h3 : δ3 = [] := hempty 2 (by omega)
    have h4 : δ4 = [] := hempty 3 (by omega)
    have h5 : δ5 = [] := hempty 4 (by omega)
    rw [h3, h4, h5]
    have hsplit := List.dropLast_append_getLast? (Event.run c) (by rw [hlast]; rfl)
    simp only [List.append_nil]
    rw [← hsplit, ← List.append_assoc, List.dropLast_concat]
    intro hIn
    simp [List.mem_append] at hIn
    rcases hIn with h | h
    · have hck := evts_run_to_cmds v arch 0 (by omega) c (hSub1 _ h)
      exact absurd (cmds_disjoint v arch 1 0 (by omega) (by omega) c hc hck) (by omega)
    · exact hnd h
  case refine_2.«2» =>
    have h4 : δ4 = [] := hempty 3 (by omega)
    have h5 : δ5 = [] := hempty 4 (by omega)
    rw [h4, h5]
    have hsplit := List.dropLast_append_getLast? (Event.run c) (by rw [hlast]; rfl)
    simp only [List.append_nil]
    rw [← hsplit, ← List.append_assoc, List.dropLast_concat]
    intro hIn
    simp [List.mem_append] at hIn
    rcases hIn with h | h | h
    · have hck := evts_run_to_cmds v arch 0 (by omega) c (hSub1 _ h)
      exact absurd (cmds_disjoint v arch 2 0 (by omega) (by omega) c hc hck) (by omega)
    · have hck := evts_run_to_cmds v arch 1 (by omega) c (hSub2 _ h)
      exact absurd (cmds_disjoint v arch 2 1 (by omega) (by omega) c hc hck) (by omega)
    · exact hnd h
  case refine_2.«3» =>
    have h5 : δ5 = [] := hempty 4 (by omega)
    rw [h5]
    have hsplit := List.dropLast_append_getLast? (Event.run c) (by rw [hlast]; rfl)
    simp only [List.append_nil]
    rw [← hsplit, ← List.append_assoc, List.dropLast_concat]
    intro hIn
    simp [List.mem_append] at hIn
    rcases hIn with h | h | h | h
    · have hck := evts_run_to_cmds v arch 0 (by omega) c (hSub1 _ h)
      exact absurd (cmds_disjoint v arch 3 0 (by omega) (by omega) c hc hck) (by omega)
    · have hck := evts_run_to_cmds v arch 1 (by omega) c (hSub2 _ h)
      exact absurd (cmds_disjoint v arch 3 1 (by omega) (by omega) c hc hck) (by omega)
    · have hck := evts_run_to_cmds v arch 2 (by omega) c (hSub3 _ h)
      exact absurd (cmds_disjoint v arch 3 2 (by omega) (by omega) c hc hck) (by omega)
    · exact hnd h
  case refine_2.«4» =>
    have hsplit := List.dropLast_append_getLast? (Event.run c) (by rw [hlast]; rfl)
    simp only [List.append_nil]
    rw [← hsplit, ← List.append_assoc, List.dropLast_concat]
    intro hIn
    simp [List.mem_append] at hIn
    rcases hIn with h | h | h | h | h
    · have hck := evts_run_to_cmds v arch 0 (by omega) c (hSub1 _ h)
      exact absurd (cmds_disjoint v arch 4 0 (by omega) (by omega) c hc hck) (by omega)
    · have hck := evts_run_to_cmds v arch 1 (by omega) c (hSub2 _ h)
      exact absurd (cmds_disjoint v arch 4 1 (by omega) (by omega) c hc hck) (by omega)
    · have hck := evts_run_to_cmds v arch 2 (by omega) c (hSub3 _ h)
      exact absurd (cmds_disjoint v arch 4 2 (by omega) (by omega) c hc hck) (by omega)
    · have hck := evts_run_to_cmds v arch 3 (by omega) c (hSub4 _ h)
      exact absurd (cmds_disjoint v arch 4 3 (by omega) (by omega) c hc hck) (by omega)
    · exact hnd h

theorem C8_amended_errors_unwrapped_no_retry_witness :
    ∃ c, (∃ i, ∃ hi : i < 5, c ∈ (depCmdsList "3.1.0" "x86_64").get ⟨i, hi⟩) ∧
      TaskError.unexpectedExit
          (Cmd.wget "/tmp/SwitchboardSDK.zip" (get_sdk_url_v "3.1.0" "x86_64")).render =
        TaskError.unexpectedExit c.render ∧
      isProvisioningErrorB (some (TaskError.unexpectedExit
          (Cmd.wget "/tmp/SwitchboardSDK.zip" (get_sdk_url_v "3.1.0" "x86_64")).render)) = false ∧
      (fetchDepsV "3.1.0" wgetFailOracle "x86_64" []).1.trace.getLast? = some (Event.run c) ∧
      Event.run c ∉ (fetchDepsV "3.1.0" wgetFailOracle "x86_64" []).1.trace.dropLast :=
  C8_amended_errors_unwrapped_no_retry "3.1.0" wgetFailOracle "x86_64" "x86_64" []
    (TaskError.unexpectedExit
      (Cmd.wget "/tmp/SwitchboardSDK.zip" (get_sdk_url_v "3.1.0" "x86_64")).render)
    (by decide) (by decide)

/-- C2 counterexample: with the Switchboard SDK absent, a failure during
archive extraction aborts the task but leaves the downloaded archive at
its temporary location `/tmp/SwitchboardSDK.zip` (the `rm` cleanup runs
only after a successful unzip), contradicting the claim that no leftover
temporary files survive a failure; moreover on the successful path the
dependency becomes visible at `local_path` by the extraction command
writing directly into `external/switchboard-sdk` — there is no staging
directory and no rename anywhere in the run. -/
theorem C2_counterexample_partial_state :
    (fetch_deps unzipFailOracle "x86_64" []).2 =
      some (TaskError.unexpectedExit
        "unzip -q /tmp/SwitchboardSDK.zip -d external/switchboard-sdk") ∧
    "/tmp/SwitchboardSDK.zip" ∈ (fetch_deps unzipFailOracle "x86_64" []).1.fs ∧
    Event.run (Cmd.unzip "/tmp/SwitchboardSDK.zip" sdk_dir) ∈
      (fetch_deps (fun _ => true) "x86_64" []).1.trace ∧
    sdk_dir ∈ (fetch_deps (fun _ => true) "x86_64" []).1.fs := by
  decide

/-- C2 amended: if provisioning fails, the failure propagates
immediately, but cleanup and staging do not happen: every archive
extraction in any `fetch_deps` run writes directly into the dependency's
final install directory (no staging directory, no rename), every clone
writes directly into its final install directory, and if the SDK
download succeeds but its extraction fails, the task aborts with the
extraction error while the downloaded archive remains at its /tmp
location. -/
theorem C2_amended_no_staging_no_cleanup (v : String) (o : Cmd → Bool)
    (machineRaw arch : String) (fs0 : List String)
    (harch : get_arch machineRaw = Except.ok arch) :
    (∀ z d, Event.run (Cmd.unzip z d) ∈ (fetchDepsV v o machineRaw fs0).1.trace →
       (z = "/tmp/SwitchboardSDK.zip" ∧ d = sdk_dir) ∨
       (z = "/tmp/SwitchboardAudioEffects.zip" ∧ d = effects_dir)) ∧
    (∀ opts u d, Event.run (Cmd.gitClone opts u d) ∈ (fetchDepsV v o machineRaw fs0).1.trace →
       d = stretch_dir ∨ d = linear_dir ∨ d = catch2_dir) ∧
    (sdk_dir ∉ fs0 →
     o (Cmd.wget "/tmp/SwitchboardSDK.zip" (get_sdk_url_v v arch)) = true →
     o (Cmd.unzip "/tmp/SwitchboardSDK.zip" sdk_dir) = false →
       (fetchDepsV v o machineRaw fs0).2 = some (TaskError.unexpectedExit
         (Cmd.unzip "/tmp/SwitchboardSDK.zip" sdk_dir).render) ∧
       "/tmp/SwitchboardSDK.zip" ∈ (fetchDepsV v o machineRaw fs0).1.fs) := by
  obtain ⟨fs', δ1, δ2, δ3, δ4, δ5, tail, e, hEq, hSub1, hSub2, hSub3, hSub4, hSub5, hCase⟩ :=
    fetchDepsVSummary v o machineRaw arch fs0 harch
  have htail : ∀ x ∈ tail, x = Event.log "All dependencies fetched successfully!" := by
    rcases hCase with ⟨_, ht, _⟩ | ⟨_, _, _, ht, _⟩
    · rw [ht]; intro x hx; simpa using hx
    · rw [ht]; intro x hx; simp at hx
  refine ⟨?_, ?_, ?_⟩
  · intro z d hIn
    rw [hEq] at hIn
    simp [List.mem_append] at hIn
    rcases hIn with h | h | h | h | h | h
    · have := hSub1 _ h
      simp [sdkEvts, archiveEvts] at this
      rcases this with ⟨hz, hd⟩
      exact Or.inl ⟨hz, by simp [hd]⟩
    · have := hSub2 _ h
      simp [effectsEvts, archiveEvts] at this
      rcases this with ⟨hz, hd⟩
      exact Or.inr ⟨hz, by simp [hd]⟩
    · have := hSub3 _ h
      simp [stretchEvts, cloneEvts] at this
    · have := hSub4 _ h
      simp [linearEvts, cloneEvts] at this
    · have := hSub5 _ h
      simp [catch2Evts, cloneEvts] at this
    · have := htail _ h
      simp at this
  · intro opts u d hIn
    rw [hEq] at hIn
    simp [List.mem_append] at hIn
    rcases hIn with h | h | h | h | h | h
    · have := hSub1 _ h
      simp [sdkEvts, archiveEvts] at this
    · have := hSub2 _ h
      simp [effectsEvts, archiveEvts] at this
    · have := hSub3 _ h
      simp [stretchEvts, cloneEvts] at this
      exact Or.inl (by simp [this.2.2])
    · have := hSub4 _ h
      simp [linearEvts, cloneEvts] at this
      exact Or.inr (Or.inl (by simp [this.2.2]))
    · have := hSub5 _ h
      simp [catch2Evts, cloneEvts] at this
      exact Or.inr (Or.inr (by simp [this.2.2]))
    · have := htail _ h
      simp at this
  · intro hnm hwt huzf
    have hnot : sdk_dir ∉ (EXTERNAL_DIR :: fs0 : List String) := by
      intro h
      rcases List.mem_cons.mp h with h | h
      · exact absurd h (by decide)
      · exact hnm h
    rw [sdk_dir_eq] at huzf
    constructor
    · simp only [fetchDepsV, harch, archiveBlock, step, andThen]
      rw [if_neg hnot]
      simp [hwt, huzf, Cmd.applyFS]
    · simp only [fetchDepsV, harch, archiveBlock, step, andThen]
      rw [if_neg hnot]
      simp [hwt, huzf, Cmd.applyFS]

theorem C2_amended_no_staging_no_cleanup_witness :
    (fetchDepsV "3.1.0" unzipFailOracle "x86_64" []).2 = some (TaskError.unexpectedExit
      (Cmd.unzip "/tmp/SwitchboardSDK.zip" sdk_dir).render) ∧
    "/tmp/SwitchboardSDK.zip" ∈ (fetchDepsV "3.1.0" unzipFailOracle "x86_64" []).1.fs :=
  (C2_amended_no_staging_no_cleanup "3.1.0" unzipFailOracle "x86_64" "x86_64" []
    (by decide)).2.2 (by decide) (by decide) (by decide)

theorem shellWordsGo_quoted (l : List Char) (h : ∀ c ∈ l, c ≠ '"') (rest cur : List Char)
    (acc : List String) :
    shellWordsGo (l ++ rest) true true cur acc =
      shellWordsGo rest true true (l.reverse ++ cur) acc := by
  induction l generalizing cur with
  | nil => simp
  | cons c l ih =>
      have hc : c ≠ '"' := h c (by simp)
      have hstep : shellWordsGo ((c :: l) ++ rest) true true cur acc =
          shellWordsGo (l ++ rest) true true (c :: cur) acc := by
        simp [shellWordsGo, hc]
      rw [hstep, ih (fun x hx => h x (by simp [hx])) (c :: cur)]
      simp

theorem shellWordsGo_test_start (t : List Char) :
    shellWordsGo ("build/VoiceChangerTests \"".data ++ t) false false [] [] =
      shellWordsGo t true true [] ["build/VoiceChangerTests"] := rfl

theorem shellWordsGo_close_quote (cur : List Char) (acc : List String) :
    shellWordsGo ['"'] true true cur acc = acc ++ [String.mk cur.reverse] := rfl

/-- C3 counterexample: the `test` task interpolates the filter into a
single shell command string, wrapping it in double quotes; for the
concrete filter `a"b` the resulting command line word-splits to the
argument `ab`, not to the filter string verbatim, so the claim that the
test binary always receives exactly the filter as one untouched process
argument (never interpolated into a shell command line) is false. -/
theorem C3_counterexample_filter_interpolated :
    test_task_cmd (some "a\"b") = "build/VoiceChangerTests \"a\"b\"" ∧
    shellWords (test_task_cmd (some "a\"b")) = ["build/VoiceChangerTests", "ab"] ∧
    "ab" ≠ "a\"b" := by
  decide

/-- C3 amended: the `test` task builds a single shell command line with
the filter interpolated between literal double quotes (so the filter is
interpolated into a shell command string, not passed as a structured
argument); for every non-empty filter containing no double quote, no
backslash, no backquote, and no dollar character, word-splitting that
command line yields the test binary plus exactly one argument equal to
the filter verbatim. -/
theorem C3_amended_filter_quoted_shell (f : String) (hne : f ≠ "")
    (hq : ∀ c ∈ f.data, c ≠ '"' ∧ c ≠ '\\' ∧ c ≠ '`' ∧ c ≠ '$') :
    test_task_cmd (some f) = "build/VoiceChangerTests \"" ++ f ++ "\"" ∧
    shellWords (test_task_cmd (some f)) = ["build/VoiceChangerTests", f] := by
  have hie : f.isEmpty = false := by
    cases hb : f.isEmpty
    · rfl
    · exact absurd ((String.isEmpty_iff f).mp hb) hne
  have hcmd : test_task_cmd (some f) = "build/VoiceChangerTests \"" ++ f ++ "\"" := by
    simp only [test_task_cmd, hie, Bool.false_eq_true, if_false]
    rw [show (BUILD_DIR ++ "/VoiceChangerTests" ++ " \"" : String) =
      "build/VoiceChangerTests \"" from rfl]
  refine ⟨hcmd, ?_⟩
  rw [hcmd]
  rw [show shellWords ("build/VoiceChangerTests \"" ++ f ++ "\"") =
    shellWordsGo (("build/VoiceChangerTests \"" ++ f ++ "\"" : String).data)
      false false [] [] from rfl]
  rw [String.data_append, String.data_append]
  rw [show ("\"" : String).data = ['"'] from rfl]
  rw [List.append_assoc]
  rw [shellWordsGo_test_start (f.data ++ ['"'])]
  rw [shellWordsGo_quoted f.data (fun c hc => (hq c hc).1) ['"'] []]
  rw [shellWordsGo_close_quote]
  have hrev : (f.data.reverse ++ ([] : List Char)).reverse = f.data := by simp
  rw [hrev]
  have hfe : String.mk f.data = f := String.ext rfl
  rw [hfe]
  rfl

theorem C3_amended_filter_quoted_shell_witness :
    test_task_cmd (some "[baseline]") = "build/VoiceChangerTests \"[baseline]\"" ∧
    shellWords (test_task_cmd (some "[baseline]")) = ["build/VoiceChangerTests", "[baseline]"] :=
  C3_amended_filter_quoted_shell "[baseline]" (by decide) (by decide)

/-- C4 (code-bug evidence): the `rebuild` task body executes exactly
`rm -rf build` followed by the bare cmake compile invocation, with no
cmake configure step anywhere in its trace, and it does remove the build
directory's prior contents.  `rebuild` calls `clean(c)` and then
`build(c, release=release)` directly as Python functions; Invoke's
`Task.__call__` runs only the body, so `build`'s declared
`pre=[configure]` prerequisite is skipped, contradicting the claim (and
the task's own docstring) that a successful configure+build cycle runs
after cleaning. -/
theorem C4_rebuild_no_configure (o : Cmd → Bool) (release : Bool) (fs0 : List String)
    (hok : ∀ c, o c = true) :
    (rebuild_body o release ⟨fs0, []⟩).1.trace =
      [Event.run (Cmd.rmrf BUILD_DIR), Event.run (Cmd.cmakeBuild BUILD_DIR)] ∧
    (∀ bt, Event.run (Cmd.cmakeConfigure BUILD_DIR bt) ∉
      (rebuild_body o release ⟨fs0, []⟩).1.trace) ∧
    (∀ p ∈ fs0, (p = BUILD_DIR ∨ strStartsWith (BUILD_DIR ++ "/") p = true) →
      p ∉ (rebuild_body o release ⟨fs0, []⟩).1.fs) := by
  have h1 : rebuild_body o release ⟨fs0, []⟩ =
      (⟨fs0.filter (fun q => !(q == BUILD_DIR || strStartsWith (BUILD_DIR ++ "/") q)),
        [Event.run (Cmd.rmrf BUILD_DIR), Event.run (Cmd.cmakeBuild BUILD_DIR)]⟩, none) := by
    simp [rebuild_body, clean_body, build_body, step, andThen, hok, Cmd.applyFS]
  rw [h1]
  refine ⟨rfl, ?_, ?_⟩
  · intro bt h
    simp at h
  · intro p hp hcond hmem
    simp only [List.mem_filter] at hmem
    rcases hmem with ⟨-, hb⟩
    rcases hcond with rfl | hpre
    · simp at hb
    · simp [hpre] at hb

theorem C4_rebuild_no_configure_witness :
    (rebuild_body (fun _ => true) false ⟨["build/objects.o"], []⟩).1.trace =
      [Event.run (Cmd.rmrf BUILD_DIR), Event.run (Cmd.cmakeBuild BUILD_DIR)] ∧
    Event.run (Cmd.cmakeConfigure BUILD_DIR "Debug") ∉
      (rebuild_body (fun _ => true) false ⟨["build/objects.o"], []⟩).1.trace ∧
    "build/objects.o" ∉ (rebuild_body (fun _ => true) false ⟨["build/objects.o"], []⟩).1.fs := by
  have h := C4_rebuild_no_configure (fun _ => true) false ["build/objects.o"] (fun c => rfl)
  exact ⟨h.1, h.2.1 "Debug", h.2.2 "build/objects.o" (by decide) (Or.inr (by decide))⟩

/-- C5 counterexample: `get_arch` lowercases the machine identifier
before raising, so for the unrecognized mixed-case input `ARMV7L` the
error carries `armv7l`, not the raw input string verbatim. -/
theorem C5_counterexample_lowercased_payload :
    get_arch "ARMV7L" = Except.error (ArchError.unsupported "armv7l") ∧
    get_arch "ARMV7L" ≠ Except.error (ArchError.unsupported "ARMV7L") := by
  decide

/-- C5 amended: for every machine identifier that lowercases to none of
the four recognized aliases, architecture resolution fails with the
unsupported-platform RuntimeError carrying the lowercased input (hence
the input verbatim whenever it is already lowercase), and no fallback
architecture is chosen. -/
theorem C5_amended_unsupported_lowercased (s : String)
    (h1 : ¬(py_lower s = "x86_64" ∨ py_lower s = "amd64"))
    (h2 : ¬(py_lower s = "aarch64" ∨ py_lower s = "arm64")) :
    get_arch s = Except.error (ArchError.unsupported (py_lower s)) := by
  simp only [get_arch]
  rw [if_neg h1, if_neg h2]

theorem C5_amended_unsupported_lowercased_witness :
    get_arch "armv7l" = Except.error (ArchError.unsupported "armv7l") :=
  C5_amended_unsupported_lowercased "armv7l" (by decide) (by decide)

/-- C6: architecture resolution maps any string lowercasing to `x86_64`
or `amd64` to the tag `x86_64`, and any string lowercasing to `aarch64`
or `arm64` to the tag `aarch64`; since the comparison is performed on
the lowercased input, every upper/lower-case variant of these aliases
resolves to the same tag. -/
theorem C6_arch_aliases_case_insensitive (s : String) :
    ((py_lower s = "x86_64" ∨ py_lower s = "amd64") → get_arch s = Except.ok "x86_64") ∧
    ((py_lower s = "aarch64" ∨ py_lower s = "arm64") → get_arch s = Except.ok "aarch64") := by
  constructor
  · intro h
    simp only [get_arch]
    rw [if_pos h]
  · intro h
    have hne : ¬(py_lower s = "x86_64" ∨ py_lower s = "amd64") := by
      rcases h with h | h <;> rw [h] <;> decide
    simp only [get_arch]
    rw [if_neg hne, if_pos h]

theorem C6_arch_aliases_case_insensitive_witness :
    get_arch "AMD64" = Except.ok "x86_64" ∧ get_arch "Arm64" = Except.ok "aarch64" :=
  ⟨(C6_arch_aliases_case_insensitive "AMD64").1 (Or.inr (by decide)),
   (C6_arch_aliases_case_insensitive "Arm64").2 (Or.inr (by decide))⟩

/-- C9: invoking the `test` task with an empty-string filter behaves
identically to invoking it with no filter — Python's `if filter:` is
falsy for the empty string, so the command string is the bare test
binary and word-splits to zero arguments. -/
theorem C9_empty_filter_like_none :
    test_task_cmd (some "") = test_task_cmd none ∧
    shellWords (test_task_cmd (some "")) = ["build/VoiceChangerTests"] := by
  decide

/-- C10: the per-architecture URL resolvers are total functions with no
error branch: on `x86_64` they return the linux URL for the configured
SDK version 3.1.0, and on every other input string whatsoever they
return the linux-aarch64 URL. -/
theorem C10_url_resolution_total :
    get_sdk_url "x86_64" =
      "https://switchboard-sdk-public.s3.amazonaws.com/builds/release/3.1.0/linux/SwitchboardSDK.zip" ∧
    get_effects_url "x86_64" =
      "https://switchboard-sdk-public.s3.amazonaws.com/builds/release/3.1.0/linux/SwitchboardAudioEffects.zip" ∧
    ∀ a, a ≠ "x86_64" →
      get_sdk_url a =
        "https://switchboard-sdk-public.s3.amazonaws.com/builds/release/3.1.0/linux-aarch64/SwitchboardSDK.zip" ∧
      get_effects_url a =
        "https://switchboard-sdk-public.s3.amazonaws.com/builds/release/3.1.0/linux-aarch64/SwitchboardAudioEffects.zip" := by
  refine ⟨by decide, by decide, fun a ha => ⟨?_, ?_⟩⟩
  · show get_sdk_url_v SDK_VERSION a = _
    simp only [get_sdk_url_v]
    rw [if_neg ha]
    decide
  · show get_effects_url_v SDK_VERSION a = _
    simp only [get_effects_url_v]
    rw [if_neg ha]
    decide

theorem C10_url_resolution_total_witness :
    get_sdk_url "armv7l" =
      "https://switchboard-sdk-public.s3.amazonaws.com/builds/release/3.1.0/linux-aarch64/SwitchboardSDK.zip" ∧
    get_effects_url "armv7l" =
      "https://switchboard-sdk-public.s3.amazonaws.com/builds/release/3.1.0/linux-aarch64/SwitchboardAudioEffects.zip" :=
  C10_url_resolution_total.2.2 "armv7l" (by decide)

theorem C1_fetch_deps_skips_existing_witness :
    (fetchDepsV "9.9.9" (fun _ => true) "x86_64"
      ["external/switchboard-sdk", "external/switchboard-effects",
       "external/signalsmith-stretch", "external/signalsmith-linear",
       "external/Catch2"]).2 = none ∧
    Event.log "Switchboard SDK already exists, skipping..." ∈
      (fetchDepsV "9.9.9" (fun _ => true) "x86_64"
        ["external/switchboard-sdk", "external/switchboard-effects",
         "external/signalsmith-stretch", "external/signalsmith-linear",
         "external/Catch2"]).1.trace ∧
    Event.run (Cmd.wget "/tmp/SwitchboardSDK.zip" (get_sdk_url_v "9.9.9" "x86_64")) ∉
      (fetchDepsV "9.9.9" (fun _ => true) "x86_64"
        ["external/switchboard-sdk", "external/switchboard-effects",
         "external/signalsmith-stretch", "external/signalsmith-linear",
         "external/Catch2"]).1.trace := by
  have h := C1_fetch_deps_skips_existing "9.9.9" (fun _ => true) "x86_64" "x86_64"
    ["external/switchboard-sdk", "external/switchboard-effects",
     "external/signalsmith-stretch", "external/signalsmith-linear",
     "external/Catch2"] (by decide) (fun c => rfl)
  exact ⟨h.1, (h.2.2.1 (by decide)).1, (h.2.2.1 (by decide)).2 _ (by simp [sdkCmds])⟩
